import Mathlib

/-!
Verification of the techulus/cloud agent (src/agent/src/main.rs), a polling
agent that queries a local container runtime for containers, images and
networks and POSTs the snapshot as JSON to a status endpoint, racing an
infinite poll loop against a Ctrl-C listener.

The embedding is a sequential event-trace semantics: the spawned loop body
is a function from per-tick oracle results (the three docker list queries
and the HTTP send outcome) to a list of observable events; the tokio
select in main is a function of which arm resolves first.
-/

namespace Agent

/-- JSON values, the wire shape produced by the serde json macro. The records
returned by the container runtime are opaque structured values; we model each
record as an arbitrary JSON value. -/
inductive Json where
  | null : Json
  | bool : Bool → Json
  | num : Int → Json
  | str : String → Json
  | arr : List Json → Json
  | obj : List (String × Json) → Json

/-- bollard ListContainersOptions with String keys: fields all, limit, size,
filters; Default gives all=false, limit=none, size=false, empty filters. -/
structure ListContainersOptions where
  all : Bool
  limit : Option Int
  size : Bool
  filters : List (String × List String)
deriving DecidableEq

def ListContainersOptions.defaultOpts : ListContainersOptions :=
  { all := false, limit := none, size := false, filters := [] }

/-- bollard ListImagesOptions with String keys: fields all, filters, digests;
Default gives all=false, empty filters, digests=false. -/
structure ListImagesOptions where
  all : Bool
  filters : List (String × List String)
  digests : Bool
deriving DecidableEq

def ListImagesOptions.defaultOpts : ListImagesOptions :=
  { all := false, filters := [], digests := false }

/-- bollard ListNetworksOptions with String keys: a filters field only;
Default gives empty filters. -/
structure ListNetworksOptions where
  filters : List (String × List String)
deriving DecidableEq

def ListNetworksOptions.defaultOpts : ListNetworksOptions :=
  { filters := [] }

/-- The options the loop body passes to list_containers:
ListContainersOptions { all: true, ..Default::default() }. -/
def containersQueryOptions : ListContainersOptions :=
  { ListContainersOptions.defaultOpts with all := true }

/-- The options the loop body passes to list_images:
ListImagesOptions { all: true, ..Default::default() }. -/
def imagesQueryOptions : ListImagesOptions :=
  { ListImagesOptions.defaultOpts with all := true }

/-- The options the loop body passes to list_networks:
ListNetworksOptions { ..Default::default() }. -/
def networksQueryOptions : ListNetworksOptions :=
  ListNetworksOptions.defaultOpts

/-- An outgoing HTTP request as assembled in send_status_update. -/
structure Request where
  method : String
  url : String
  headers : List (String × String)
  body : Json

/-- The hardcoded status endpoint URL in send_status_update. -/
def statusUrl : String := "http://localhost:3000/api/v1/agent/status"

/-- The hardcoded x-agent-token header value in send_status_update. -/
def agentToken : String := "10dbcfc6-9e9b-478f-be81-bbd8b1df176e"

/-- The JSON body built by the json macro in send_status_update:
an object with the three fields containers, images, networks, each the
serialization of the corresponding input vector. -/
def statusBody (containers images networks : List Json) : Json :=
  Json.obj [("containers", Json.arr containers),
            ("images", Json.arr images),
            ("networks", Json.arr networks)]

/-- The request send_status_update sends: POST to the fixed URL with the
Content-Type and x-agent-token headers and the JSON body. -/
def statusRequest (containers images networks : List Json) : Request :=
  { method := "POST"
    url := statusUrl
    headers := [("Content-Type", "application/json"),
                ("x-agent-token", agentToken)]
    body := statusBody containers images networks }

/-- Outcome of the reqwest send plus body read, as seen by the code:
ok status bodyText means an HTTP response arrived (send resolved Ok) with
the given status code, and bodyText is the result of response.text():
some s when the body was readable as text, none when reading it failed;
netErr means send itself failed (no response obtained). -/
inductive SendOutcome where
  | ok : Nat → Option String → SendOutcome
  | netErr : String → SendOutcome
deriving DecidableEq

/-- reqwest semantics: send resolves Ok for any HTTP response that arrives,
whatever its status code (4xx and 5xx included, no error_for_status call in
the code); send fails only when no response could be obtained. -/
def responseOutcome (status : Nat) (bodyText : Option String) : SendOutcome :=
  SendOutcome.ok status bodyText

/-- A console log line, on standard out or standard error. -/
inductive LogLine where
  | stdout : String → LogLine
  | stderr : String → LogLine
deriving DecidableEq

/-- The log lines send_status_update prints for a given outcome of the send:
on Ok response with readable body, println the Received response line; on Ok
response with unreadable body, the if-let silently skips printing; on send
error, eprintln the Request failed line. -/
def send_status_update_logs : SendOutcome → List LogLine
  | SendOutcome.ok _ (some body) =>
      [LogLine.stdout ("Received response: " ++ body)]
  | SendOutcome.ok _ none => []
  | SendOutcome.netErr err =>
      [LogLine.stderr ("Request failed: " ++ err)]

/-- Observable events of the agent process, in the order they occur. -/
inductive Event where
  | queryContainers : ListContainersOptions → Event
  | queryImages : ListImagesOptions → Event
  | queryNetworks : ListNetworksOptions → Event
  | httpSend : Request → Event
  | log : LogLine → Event
  | sleepSecs : Nat → Event
  | panicked : Event

/-- The events of one call to send_status_update: the single HTTP send of the
assembled request, followed by the log line the outcome produces. The function
is total: it returns for every outcome and never itself panics or errors. -/
def send_status_update (containers images networks : List Json)
    (outcome : SendOutcome) : List Event :=
  Event.httpSend (statusRequest containers images networks) ::
    (send_status_update_logs outcome).map Event.log

/-- Results of the three docker list queries for one tick, each either the
returned records or an error (connection refused, socket missing, non-2xx,
deserialization failure). -/
structure DockerTickResult where
  containers : Except String (List Json)
  images : Except String (List Json)
  networks : Except String (List Json)

/-- Whether any of the three queries of a tick fails. -/
def tickFails (d : DockerTickResult) : Bool :=
  match d.containers, d.images, d.networks with
  | Except.ok _, Except.ok _, Except.ok _ => false
  | _, _, _ => true

/-- One iteration of the loop body: list_containers (all=true) then unwrap,
list_images (all=true) then unwrap, list_networks (default options) then
unwrap, then send_status_update, then sleep 15 seconds. Each unwrap on an
error panics on the spot: later queries are not issued, the reporter is not
invoked, and the returned flag false records that the task ends there. -/
def runTick (d : DockerTickResult) (s : SendOutcome) : List Event × Bool :=
  match d.containers with
  | Except.error _ =>
      ([Event.queryContainers containersQueryOptions, Event.panicked], false)
  | Except.ok cs =>
    match d.images with
    | Except.error _ =>
        ([Event.queryContainers containersQueryOptions,
          Event.queryImages imagesQueryOptions, Event.panicked], false)
    | Except.ok imgs =>
      match d.networks with
      | Except.error _ =>
          ([Event.queryContainers containersQueryOptions,
            Event.queryImages imagesQueryOptions,
            Event.queryNetworks networksQueryOptions, Event.panicked], false)
      | Except.ok nets =>
          (Event.queryContainers containersQueryOptions ::
           Event.queryImages imagesQueryOptions ::
           Event.queryNetworks networksQueryOptions ::
           send_status_update cs imgs nets s ++ [Event.sleepSecs 15], true)

/-- The spawned infinite loop, observed for a bounded number of iterations
(fuel). denv and senv are the oracles giving each tick its query results and
its send outcome; t is the index of the current tick. A tick whose flag is
false (a panicked unwrap) produces no further events. -/
def task_loop (denv : Nat → DockerTickResult) (senv : Nat → SendOutcome) :
    Nat → Nat → List Event
  | _, 0 => []
  | t, fuel + 1 =>
      (runTick (denv t) (senv t)).1 ++
        (if (runTick (denv t) (senv t)).2
         then task_loop denv senv (t + 1) fuel
         else [])

/-- Number of HTTP sends (reporter invocations) in a trace. -/
def countSends (evs : List Event) : Nat :=
  evs.countP (fun e => match e with | Event.httpSend _ => true | _ => false)

/-- Number of docker list queries in a trace. -/
def countQueries (evs : List Event) : Nat :=
  evs.countP (fun e =>
    match e with
    | Event.queryContainers _ => true
    | Event.queryImages _ => true
    | Event.queryNetworks _ => true
    | _ => false)

/-- Which arm of the tokio select resolves first: the Ctrl-C shutdown signal,
or the JoinHandle of the spawned loop task. -/
inductive RaceWinner where
  | signalFirst : RaceWinner
  | loopFirst : RaceWinner
deriving DecidableEq

/-- The shutdown message printed when the signal arm wins the select. -/
def shutdownMessage : String := "Shutting down agent..."

/-- What the select block does once one arm resolves: if the signal resolves
first, its branch prints the shutdown message; if the JoinHandle resolves
first (only possible through a panic inside the task, which tokio catches and
hands back as a join error matched by the wildcard pattern), its branch does
nothing. In both cases main then returns Ok. -/
def selectOutcome : RaceWinner → List LogLine × Except String Unit
  | RaceWinner.signalFirst => ([LogLine.stdout shutdownMessage], Except.ok ())
  | RaceWinner.loopFirst => ([], Except.ok ())

/-- Process exit code from the value main returns: Ok gives the success
code 0, Err gives the failure code 1. -/
def exitCode : Except String Unit → Nat
  | Except.ok _ => 0
  | Except.error _ => 1

/-- A whole process run: the events it emitted and the value main returned. -/
structure ProcessRun where
  events : List Event
  result : Except String Unit

/-- The embedded main: Docker::connect_with_socket with the question-mark
operator (an error returns from main before anything is spawned), then the
spawn of task_loop raced by select against the Ctrl-C listener. loopTicks is
how many loop iterations the scheduler let the task run before the select
resolved; w is which arm resolved first. -/
def agent_main (connect : Except String Unit) (denv : Nat → DockerTickResult)
    (senv : Nat → SendOutcome) (loopTicks : Nat) (w : RaceWinner) : ProcessRun :=
  match connect with
  | Except.error e => { events := [], result := Except.error e }
  | Except.ok _ =>
      { events := task_loop denv senv 0 loopTicks ++
          (selectOutcome w).1.map Event.log
        result := (selectOutcome w).2 }

/-- A concrete oracle for witnesses: tick 0 succeeds with one container and
no images or networks, every later tick fails its containers query. -/
def witDenv : Nat → DockerTickResult := fun t =>
  if t = 0 then ⟨Except.ok [Json.null], Except.ok [], Except.ok []⟩
  else ⟨Except.error "socket missing", Except.ok [], Except.ok []⟩

/-- A concrete send oracle for witnesses: every send gets a 200 response with
a readable body. -/
def witSenv : Nat → SendOutcome := fun _ => SendOutcome.ok 200 (some "ok")

/-- A concrete oracle whose very first containers query fails, so the loop
task panics on its first tick. -/
def crashDenv : Nat → DockerTickResult := fun _ =>
  ⟨Except.error "connection refused", Except.ok [], Except.ok []⟩

/-- A concrete send oracle for witnesses: every send gets an HTTP 500
response with a readable body. -/
def http500Senv : Nat → SendOutcome := fun _ => responseOutcome 500 (some "oops")

lemma countSends_append (a b : List Event) :
    countSends (a ++ b) = countSends a + countSends b := by
  simp [countSends]

lemma countSends_log_map (ls : List LogLine) :
    countSends (ls.map Event.log) = 0 := by
  induction ls with
  | nil => rfl
  | cons a l ih => simp [countSends, List.countP_cons, ih]

lemma countQueries_log_map (ls : List LogLine) :
    countQueries (ls.map Event.log) = 0 := by
  induction ls with
  | nil => rfl
  | cons a l ih => simp [countQueries, List.countP_cons, ih]

lemma runTick_fail (d : DockerTickResult) (s : SendOutcome)
    (h : tickFails d = true) :
    (runTick d s).2 = false ∧ countSends (runTick d s).1 = 0 ∧
      ∃ pre, (runTick d s).1 = pre ++ [Event.panicked] := by
  obtain ⟨dc, di, dn⟩ := d
  cases dc with
  | error e =>
      exact ⟨rfl, rfl, [Event.queryContainers containersQueryOptions], rfl⟩
  | ok cs =>
    cases di with
    | error e =>
        exact ⟨rfl, rfl, [Event.queryContainers containersQueryOptions,
          Event.queryImages imagesQueryOptions], rfl⟩
    | ok imgs =>
      cases dn with
      | error e =>
          exact ⟨rfl, rfl, [Event.queryContainers containersQueryOptions,
            Event.queryImages imagesQueryOptions,
            Event.queryNetworks networksQueryOptions], rfl⟩
      | ok nets => simp [tickFails] at h

lemma runTick_ok (d : DockerTickResult) (s : SendOutcome)
    (h : tickFails d = false) :
    (runTick d s).2 = true ∧ countSends (runTick d s).1 = 1 := by
  obtain ⟨dc, di, dn⟩ := d
  cases dc with
  | error e => simp [tickFails] at h
  | ok cs =>
    cases di with
    | error e => simp [tickFails] at h
    | ok imgs =>
      cases dn with
      | error e => simp [tickFails] at h
      | ok nets =>
        refine ⟨rfl, ?_⟩
        cases s with
        | ok st body => cases body <;> rfl
        | netErr e => rfl

lemma task_loop_succ (denv : Nat → DockerTickResult) (senv : Nat → SendOutcome)
    (t fuel : Nat) :
    task_loop denv senv t (fuel + 1) =
      (runTick (denv t) (senv t)).1 ++
        (if (runTick (denv t) (senv t)).2
         then task_loop denv senv (t + 1) fuel
         else []) := rfl

lemma task_loop_ok_step (denv : Nat → DockerTickResult)
    (senv : Nat → SendOutcome) (t fuel : Nat) (h : tickFails (denv t) = false) :
    task_loop denv senv t (fuel + 1) =
      (runTick (denv t) (senv t)).1 ++ task_loop denv senv (t + 1) fuel := by
  rw [task_loop_succ, (runTick_ok (denv t) (senv t) h).1]
  simp

lemma task_loop_fail_aux (denv : Nat → DockerTickResult)
    (senv : Nat → SendOutcome) :
    ∀ (t t0 fuel : Nat),
      (∀ u, u < t → tickFails (denv (t0 + u)) = false) →
      tickFails (denv (t0 + t)) = true →
      task_loop denv senv t0 (t + 1 + fuel) = task_loop denv senv t0 (t + 1) ∧
      countSends (task_loop denv senv t0 (t + 1)) = t ∧
      ∃ pre, task_loop denv senv t0 (t + 1) = pre ++ [Event.panicked] := by
  intro t
  induction t with
  | zero =>
    intro t0 fuel hok hfail
    rw [Nat.add_zero] at hfail
    obtain ⟨hcont, hcount, pre, hpre⟩ := runTick_fail (denv t0) (senv t0) hfail
    have h1 : task_loop denv senv t0 (0 + 1 + fuel) =
        (runTick (denv t0) (senv t0)).1 := by
      have e : 0 + 1 + fuel = fuel + 1 := by omega
      rw [e, task_loop_succ, hcont]
      simp
    have h2 : task_loop denv senv t0 (0 + 1) =
        (runTick (denv t0) (senv t0)).1 := by
      rw [task_loop_succ, hcont]
      simp
    exact ⟨h1.trans h2.symm, by rw [h2]; exact hcount, pre, by rw [h2]; exact hpre⟩
  | succ t ih =>
    intro t0 fuel hok hfail
    have h0 : tickFails (denv t0) = false := by
      simpa using hok 0 (Nat.succ_pos t)
    have hcont := (runTick_ok (denv t0) (senv t0) h0).1
    have hcount0 := (runTick_ok (denv t0) (senv t0) h0).2
    have hok1 : ∀ u, u < t → tickFails (denv (t0 + 1 + u)) = false := by
      intro u hu
      have h := hok (u + 1) (by omega)
      have e : t0 + (u + 1) = t0 + 1 + u := by omega
      rwa [e] at h
    have hfail1 : tickFails (denv (t0 + 1 + t)) = true := by
      have e : t0 + (t + 1) = t0 + 1 + t := by omega
      rwa [e] at hfail
    obtain ⟨heq, hcount, pre, hpre⟩ := ih (t0 + 1) fuel hok1 hfail1
    refine ⟨?_, ?_, ?_⟩
    · have e1 : t + 1 + 1 + fuel = (t + 1 + fuel) + 1 := by omega
      rw [e1, task_loop_succ, hcont]
      rw [show t + 1 + 1 = (t + 1) + 1 from rfl, task_loop_succ, hcont]
      simp only [if_true]
      rw [heq]
    · rw [show t + 1 + 1 = (t + 1) + 1 from rfl, task_loop_succ, hcont]
      simp only [if_true]
      rw [countSends_append, hcount0, hcount]
      omega
    · refine ⟨(runTick (denv t0) (senv t0)).1 ++ pre, ?_⟩
      rw [show t + 1 + 1 = (t + 1) + 1 from rfl, task_loop_succ, hcont]
      simp only [if_true]
      rw [hpre, List.append_assoc]

/-- C1: if any of the three snapshot queries fails at tick t (all earlier
ticks succeeding), the unwrap panics and the background task terminates
abruptly: extra fuel adds no events, the whole trace holds exactly one
reporter invocation per earlier tick (none for tick t), and it ends at the
panic. -/
theorem fetch_error_kills_poll_task (denv : Nat → DockerTickResult)
    (senv : Nat → SendOutcome) (t fuel : Nat)
    (hok : ∀ u, u < t → tickFails (denv u) = false)
    (hfail : tickFails (denv t) = true) :
    task_loop denv senv 0 (t + 1 + fuel) = task_loop denv senv 0 (t + 1) ∧
    countSends (task_loop denv senv 0 (t + 1 + fuel)) = t ∧
    ∃ pre, task_loop denv senv 0 (t + 1 + fuel) = pre ++ [Event.panicked] := by
  have hok0 : ∀ u, u < t → tickFails (denv (0 + u)) = false := by
    intro u hu
    simpa using hok u hu
  have hfail0 : tickFails (denv (0 + t)) = true := by simpa using hfail
  obtain ⟨heq, hcount, pre, hpre⟩ :=
    task_loop_fail_aux denv senv t 0 fuel hok0 hfail0
  exact ⟨heq, by rw [heq]; exact hcount, pre, by rw [heq]; exact hpre⟩

/-- Witness for C1 at the concrete oracle witDenv (tick 0 succeeds, tick 1
fails) with fuel 3. -/
theorem fetch_error_kills_poll_task_witness :
    (∀ u, u < 1 → tickFails (witDenv u) = false) ∧
    tickFails (witDenv 1) = true ∧
    (task_loop witDenv witSenv 0 (1 + 1 + 3) = task_loop witDenv witSenv 0 (1 + 1) ∧
     countSends (task_loop witDenv witSenv 0 (1 + 1 + 3)) = 1 ∧
     ∃ pre, task_loop witDenv witSenv 0 (1 + 1 + 3) = pre ++ [Event.panicked]) :=
  ⟨by decide, by decide,
   fetch_error_kills_poll_task witDenv witSenv 1 3 (by decide) (by decide)⟩

/-- C2: whatever the outcome of the report send (readable body, unreadable
body, or network error), send_status_update contains no panic event, the
tick keeps its continue flag, ends in the 15 second sleep, and the loop
unfolds to the next tick. -/
theorem send_status_update_never_aborts (denv : Nat → DockerTickResult)
    (senv : Nat → SendOutcome) (t fuel : Nat) (cs imgs nets : List Json)
    (hd : denv t = ⟨Except.ok cs, Except.ok imgs, Except.ok nets⟩) :
    Event.panicked ∉ send_status_update cs imgs nets (senv t) ∧
    (runTick (denv t) (senv t)).2 = true ∧
    (runTick (denv t) (senv t)).1.getLast? = some (Event.sleepSecs 15) ∧
    task_loop denv senv t (fuel + 1) =
      (runTick (denv t) (senv t)).1 ++ task_loop denv senv (t + 1) fuel := by
  have hf : tickFails (denv t) = false := by rw [hd]; rfl
  refine ⟨?_, (runTick_ok (denv t) (senv t) hf).1, ?_,
    task_loop_ok_step denv senv t fuel hf⟩
  · simp [send_status_update]
  · rw [hd]
    exact List.getLast?_concat _

/-- Witness for C2 at tick 0 of the concrete oracles. -/
theorem send_status_update_never_aborts_witness :
    Event.panicked ∉ send_status_update [Json.null] [] [] (witSenv 0) ∧
    (runTick (witDenv 0) (witSenv 0)).2 = true ∧
    (runTick (witDenv 0) (witSenv 0)).1.getLast? = some (Event.sleepSecs 15) ∧
    task_loop witDenv witSenv 0 (2 + 1) =
      (runTick (witDenv 0) (witSenv 0)).1 ++ task_loop witDenv witSenv (0 + 1) 2 :=
  send_status_update_never_aborts witDenv witSenv 0 2 [Json.null] [] [] rfl

/-- C3: the request send_status_update sends is a POST to the fixed status
URL with the JSON content type header and the fixed agent token header, and
its body is the JSON object with exactly the fields containers, images,
networks, each the array of the corresponding input records. -/
theorem status_request_shape (cs imgs nets : List Json) :
    (statusRequest cs imgs nets).method = "POST" ∧
    (statusRequest cs imgs nets).url =
      "http://localhost:3000/api/v1/agent/status" ∧
    (statusRequest cs imgs nets).headers =
      [("Content-Type", "application/json"),
       ("x-agent-token", "10dbcfc6-9e9b-478f-be81-bbd8b1df176e")] ∧
    (statusRequest cs imgs nets).body =
      Json.obj [("containers", Json.arr cs),
                ("images", Json.arr imgs),
                ("networks", Json.arr nets)] :=
  ⟨rfl, rfl, rfl, rfl⟩

/-- C4: within a successful tick the events are exactly the three fetches,
then the single HTTP send built from exactly the records those fetches
returned, then the log line, then the 15 second sleep; and the loop is
strictly sequential, the next tick following only after this whole list. -/
theorem tick_sequencing (denv : Nat → DockerTickResult)
    (senv : Nat → SendOutcome) (t fuel : Nat) (cs imgs nets : List Json)
    (hd : denv t = ⟨Except.ok cs, Except.ok imgs, Except.ok nets⟩) :
    (runTick (denv t) (senv t)).1 =
      [Event.queryContainers containersQueryOptions,
       Event.queryImages imagesQueryOptions,
       Event.queryNetworks networksQueryOptions,
       Event.httpSend (statusRequest cs imgs nets)] ++
      (send_status_update_logs (senv t)).map Event.log ++
      [Event.sleepSecs 15] ∧
    task_loop denv senv t (fuel + 1) =
      (runTick (denv t) (senv t)).1 ++ task_loop denv senv (t + 1) fuel := by
  have hf : tickFails (denv t) = false := by rw [hd]; rfl
  refine ⟨?_, task_loop_ok_step denv senv t fuel hf⟩
  rw [hd]
  simp [runTick, send_status_update]

/-- Witness for C4 at tick 0 of the concrete oracles. -/
theorem tick_sequencing_witness :
    (runTick (witDenv 0) (witSenv 0)).1 =
      [Event.queryContainers containersQueryOptions,
       Event.queryImages imagesQueryOptions,
       Event.queryNetworks networksQueryOptions,
       Event.httpSend (statusRequest [Json.null] [] [])] ++
      (send_status_update_logs (witSenv 0)).map Event.log ++
      [Event.sleepSecs 15] ∧
    task_loop witDenv witSenv 0 (1 + 1) =
      (runTick (witDenv 0) (witSenv 0)).1 ++ task_loop witDenv witSenv (0 + 1) 1 :=
  tick_sequencing witDenv witSenv 0 1 [Json.null] [] [] rfl

/-- C5 counterexample: when the send succeeds but the response body cannot
be read as text, the if-let in send_status_update silently skips printing,
so no error message is printed to standard error (no line at all is
printed), contrary to the claim. -/
theorem unreadable_body_prints_nothing :
    send_status_update_logs (SendOutcome.ok 200 none) = [] := rfl

/-- C5 amended: on a network send failure an error message is printed to
standard error; when the response body cannot be read as text nothing at all
is printed; on a readable body the response is printed to standard out; in
every case exactly one send happens and nothing is retried or raised. -/
theorem send_failure_logging (err body : String) (st : Nat)
    (cs imgs nets : List Json) :
    send_status_update_logs (SendOutcome.netErr err) =
      [LogLine.stderr ("Request failed: " ++ err)] ∧
    send_status_update_logs (SendOutcome.ok st none) = [] ∧
    send_status_update_logs (SendOutcome.ok st (some body)) =
      [LogLine.stdout ("Received response: " ++ body)] ∧
    countSends (send_status_update cs imgs nets (SendOutcome.netErr err)) = 1 ∧
    countSends (send_status_update cs imgs nets (SendOutcome.ok st none)) = 1 :=
  ⟨rfl, rfl, rfl, rfl, rfl⟩

/-- C6 counterexample: an HTTP 500 response still resolves the send as Ok
(the code never checks the status), so the agent prints the ordinary
Received response line to standard out and emits no error line at all. -/
theorem http500_logs_received_response :
    send_status_update_logs (responseOutcome 500 (some "Internal Server Error")) =
      [LogLine.stdout "Received response: Internal Server Error"] := by
  decide

/-- C6 amended: when the status endpoint responds with HTTP 500, the agent
logs the response body as a Received response line on standard out (not an
error line: no stderr line occurs in the tick), and the loop proceeds to the
next scheduled tick after the fixed 15 second sleep. -/
theorem http500_continues (denv : Nat → DockerTickResult)
    (senv : Nat → SendOutcome) (t fuel : Nat) (cs imgs nets : List Json)
    (b : String)
    (hd : denv t = ⟨Except.ok cs, Except.ok imgs, Except.ok nets⟩)
    (hs : senv t = responseOutcome 500 (some b)) :
    (runTick (denv t) (senv t)).2 = true ∧
    Event.log (LogLine.stdout ("Received response: " ++ b)) ∈
      (runTick (denv t) (senv t)).1 ∧
    (∀ m, Event.log (LogLine.stderr m) ∉ (runTick (denv t) (senv t)).1) ∧
    (runTick (denv t) (senv t)).1.getLast? = some (Event.sleepSecs 15) ∧
    task_loop denv senv t (fuel + 1) =
      (runTick (denv t) (senv t)).1 ++ task_loop denv senv (t + 1) fuel := by
  have hf : tickFails (denv t) = false := by rw [hd]; rfl
  refine ⟨(runTick_ok (denv t) (senv t) hf).1, ?_, ?_, ?_,
    task_loop_ok_step denv senv t fuel hf⟩
  · rw [hd, hs]
    simp [runTick, send_status_update, responseOutcome, send_status_update_logs]
  · intro m
    rw [hd, hs]
    simp [runTick, send_status_update, responseOutcome, send_status_update_logs]
  · rw [hd]
    exact List.getLast?_concat _

/-- Witness for C6 at tick 0 of a concrete oracle answering HTTP 500. -/
theorem http500_continues_witness :
    (runTick (witDenv 0) (http500Senv 0)).2 = true ∧
    Event.log (LogLine.stdout ("Received response: " ++ "oops")) ∈
      (runTick (witDenv 0) (http500Senv 0)).1 ∧
    (∀ m, Event.log (LogLine.stderr m) ∉ (runTick (witDenv 0) (http500Senv 0)).1) ∧
    (runTick (witDenv 0) (http500Senv 0)).1.getLast? = some (Event.sleepSecs 15) ∧
    task_loop witDenv http500Senv 0 (1 + 1) =
      (runTick (witDenv 0) (http500Senv 0)).1 ++ task_loop witDenv http500Senv (0 + 1) 1 :=
  http500_continues witDenv http500Senv 0 1 [Json.null] [] [] "oops" rfl rfl

/-- C7: when the interrupt signal resolves the select first, the process
prints the shutdown message to standard out as its very last event (so no
further network call follows it), main returns Ok, and the exit code is the
success code 0. -/
theorem interrupt_graceful_shutdown (denv : Nat → DockerTickResult)
    (senv : Nat → SendOutcome) (n : Nat) :
    (agent_main (Except.ok ()) denv senv n RaceWinner.signalFirst).events =
      task_loop denv senv 0 n ++
        [Event.log (LogLine.stdout "Shutting down agent...")] ∧
    (agent_main (Except.ok ()) denv senv n RaceWinner.signalFirst).events.getLast? =
      some (Event.log (LogLine.stdout "Shutting down agent...")) ∧
    (agent_main (Except.ok ()) denv senv n RaceWinner.signalFirst).result =
      Except.ok () ∧
    exitCode (agent_main (Except.ok ()) denv senv n RaceWinner.signalFirst).result = 0 := by
  refine ⟨rfl, ?_, rfl, rfl⟩
  exact List.getLast?_concat _

/-- C8 counterexample: with the first containers query failing, the loop
task panics on tick 0 and its JoinHandle resolves first; the select arm
discards the join error and main still returns Ok, so the process exits
with the success code 0 (not a fault code) and without the shutdown
message (the only events are the query and the panic). -/
theorem loop_fault_still_exits_success :
    (agent_main (Except.ok ()) crashDenv witSenv 1 RaceWinner.loopFirst).result =
      Except.ok () ∧
    exitCode (agent_main (Except.ok ()) crashDenv witSenv 1 RaceWinner.loopFirst).result = 0 ∧
    (agent_main (Except.ok ()) crashDenv witSenv 1 RaceWinner.loopFirst).events =
      [Event.queryContainers containersQueryOptions, Event.panicked] ∧
    Event.log (LogLine.stdout shutdownMessage) ∉
      (agent_main (Except.ok ()) crashDenv witSenv 1 RaceWinner.loopFirst).events := by
  refine ⟨rfl, rfl, ?_, ?_⟩
  · show task_loop crashDenv witSenv 0 1 ++ [] = _
    rfl
  · show Event.log (LogLine.stdout shutdownMessage) ∉
      task_loop crashDenv witSenv 0 1 ++ []
    simp [task_loop, runTick, crashDenv]

/-- C8 amended: if the loop unit resolves first (only possible through a
panic, which tokio hands back as a join error), the select arm ignores it:
the process prints nothing further (no shutdown message is appended to the
loop events), main returns Ok, and the exit code is the success code 0, not
a fault code. -/
theorem loop_fault_ignored_by_select (denv : Nat → DockerTickResult)
    (senv : Nat → SendOutcome) (n : Nat) :
    (agent_main (Except.ok ()) denv senv n RaceWinner.loopFirst).events =
      task_loop denv senv 0 n ∧
    (agent_main (Except.ok ()) denv senv n RaceWinner.loopFirst).result =
      Except.ok () ∧
    exitCode (agent_main (Except.ok ()) denv senv n RaceWinner.loopFirst).result = 0 := by
  refine ⟨?_, rfl, rfl⟩
  show task_loop denv senv 0 n ++ [] = task_loop denv senv 0 n
  simp

/-- C9: a successful tick issues exactly three list queries: containers with
all set to true and every other option at its default, images with all set
to true and every other option at its default, networks with the default
options; and the reporter send carries exactly the returned records. -/
theorem tick_query_options (denv : Nat → DockerTickResult)
    (senv : Nat → SendOutcome) (t : Nat) (cs imgs nets : List Json)
    (hd : denv t = ⟨Except.ok cs, Except.ok imgs, Except.ok nets⟩) :
    countQueries (runTick (denv t) (senv t)).1 = 3 ∧
    Event.queryContainers
        { all := true, limit := none, size := false, filters := [] } ∈
      (runTick (denv t) (senv t)).1 ∧
    Event.queryImages { all := true, filters := [], digests := false } ∈
      (runTick (denv t) (senv t)).1 ∧
    Event.queryNetworks { filters := [] } ∈ (runTick (denv t) (senv t)).1 ∧
    Event.httpSend (statusRequest cs imgs nets) ∈ (runTick (denv t) (senv t)).1 := by
  rw [hd]
  refine ⟨?_, ?_, ?_, ?_, ?_⟩
  · show countQueries
      ((Event.queryContainers containersQueryOptions ::
        Event.queryImages imagesQueryOptions ::
        Event.queryNetworks networksQueryOptions ::
        send_status_update cs imgs nets (senv t)) ++ [Event.sleepSecs 15]) = 3
    rw [show (Event.queryContainers containersQueryOptions ::
        Event.queryImages imagesQueryOptions ::
        Event.queryNetworks networksQueryOptions ::
        send_status_update cs imgs nets (senv t)) ++ [Event.sleepSecs 15] =
      Event.queryContainers containersQueryOptions ::
        Event.queryImages imagesQueryOptions ::
        Event.queryNetworks networksQueryOptions ::
        Event.httpSend (statusRequest cs imgs nets) ::
        ((send_status_update_logs (senv t)).map Event.log ++ [Event.sleepSecs 15])
      from by simp [send_status_update]]
    simp [countQueries, List.countP_cons, List.countP_append,
      countQueries_log_map (send_status_update_logs (senv t)),
      show (List.countP (fun e =>
        match e with
        | Event.queryContainers _ => true
        | Event.queryImages _ => true
        | Event.queryNetworks _ => true
        | _ => false) ((send_status_update_logs (senv t)).map Event.log)) = 0
      from countQueries_log_map (send_status_update_logs (senv t))]
  · exact List.mem_cons_self _ _
  · exact List.mem_cons_of_mem _ (List.mem_cons_self _ _)
  · exact List.mem_cons_of_mem _ (List.mem_cons_of_mem _ (List.mem_cons_self _ _))
  · exact List.mem_cons_of_mem _ (List.mem_cons_of_mem _
      (List.mem_cons_of_mem _ (List.mem_cons_self _ _)))

/-- Witness for C9 at tick 0 of the concrete oracles. -/
theorem tick_query_options_witness :
    countQueries (runTick (witDenv 0) (witSenv 0)).1 = 3 ∧
    Event.queryContainers
        { all := true, limit := none, size := false, filters := [] } ∈
      (runTick (witDenv 0) (witSenv 0)).1 ∧
    Event.queryImages { all := true, filters := [], digests := false } ∈
      (runTick (witDenv 0) (witSenv 0)).1 ∧
    Event.queryNetworks { filters := [] } ∈ (runTick (witDenv 0) (witSenv 0)).1 ∧
    Event.httpSend (statusRequest [Json.null] [] []) ∈ (runTick (witDenv 0) (witSenv 0)).1 :=
  tick_query_options witDenv witSenv 0 [Json.null] [] [] rfl

/-- C10: if connecting to the container runtime socket fails, the question
mark operator returns that error from main at once: no task is spawned, the
process emits no event at all (no query, no HTTP send, no shutdown message),
and main returns the error (failure exit code 1). -/
theorem connect_error_stops_main (e : String) (denv : Nat → DockerTickResult)
    (senv : Nat → SendOutcome) (n : Nat) (w : RaceWinner) :
    (agent_main (Except.error e) denv senv n w).events = [] ∧
    (agent_main (Except.error e) denv senv n w).result = Except.error e ∧
    exitCode (agent_main (Except.error e) denv senv n w).result = 1 :=
  ⟨rfl, rfl, rfl⟩

end Agent
